import Mathlib

/-!
Verification of the MCTier core subsystems (overlay-tunnel supervisor,
peer discovery/signaling, lobby session manager) against their
natural-language specification.  The definitions below are a shallow
embedding of the Rust sources under `src-tauri/src/modules/`:
`network_service.rs`, `lobby_manager.rs` and `p2p_signaling.rs`.
Unicode character classes used by the Rust standard library
(`char::is_alphanumeric` etc.) are modelled on the character ranges this
development exercises (ASCII plus the CJK Unified Ideographs block);
`char::is_whitespace` (the Unicode White_Space property) is modelled
exactly.
-/

set_option autoImplicit false

namespace MCTier

/-- Models Rust `str::split('.')`: the (possibly empty) pieces between the
dots; splitting the empty string yields one empty piece. -/
def splitOnDot (l : List Char) : List (List Char) :=
  match l with
  | [] => [[]]
  | c :: cs =>
    if c = '.' then [] :: splitOnDot cs
    else match splitOnDot cs with
      | p :: ps => (c :: p) :: ps
      | [] => [[c]]

/-- Models Rust `str::parse::<u8>()`: an optional leading `+`, then one or
more ASCII digits, value at most 255.  Returns the parsed value as a `Nat`. -/
def parseU8 (s : List Char) : Option Nat :=
  let l := match s with
    | '+' :: rest => rest
    | l => l
  if l.isEmpty then none
  else if l.all Char.isDigit then
    let v := l.foldl (fun n c => n * 10 + (c.toNat - '0'.toNat)) 0
    if v ≤ 255 then some v else none
  else none

/-- Embeds `NetworkService::is_valid_ip` (network_service.rs:705): split on
`.`, exactly four parts, each of which parses as a `u8`. -/
def is_valid_ip (ip : String) : Bool :=
  let parts := splitOnDot ip.data
  parts.length == 4 && parts.all (fun p => (parseU8 p).isSome)

/-- Embeds `NetworkService::is_private_ip` (network_service.rs:727): the
parseable octets (Rust `filter_map`) must number four and fall in
10.0.0.0/8, 172.16.0.0/12 or 192.168.0.0/16. -/
def is_private_ip (ip : String) : Bool :=
  match (splitOnDot ip.data).filterMap parseU8 with
  | [a, b, _, _] =>
    a == 10 || (a == 172 && 16 ≤ b && b ≤ 31) || (a == 192 && b == 168)
  | _ => false

/-- Embeds `NetworkService::is_loopback` (network_service.rs:691): first
parseable octet is 127 (with four parseable octets in total). -/
def is_loopback (ip : String) : Bool :=
  match (splitOnDot ip.data).filterMap parseU8 with
  | [a, _, _, _] => a == 127
  | _ => false

/-- The host-octet acceptance check shared by the CLI query and the stdout
monitor (network_service.rs:514-518, 571-575): four dot-separated parts and
the last parses as a `u8` between 1 and 254. -/
def last_octet_ok (ip : String) : Bool :=
  match splitOnDot ip.data with
  | [_, _, _, p3] =>
    match parseU8 p3 with
    | some o => 1 ≤ o && o ≤ 254
    | none => false
  | _ => false

/-- Models Rust `char::is_whitespace`, i.e. the Unicode White_Space
property (this list is exact). -/
def rustIsWhitespace (c : Char) : Bool :=
  let n := c.toNat
  (0x09 ≤ n && n ≤ 0x0D) || n == 0x20 || n == 0x85 || n == 0xA0 ||
  n == 0x1680 || (0x2000 ≤ n && n ≤ 0x200A) || n == 0x2028 ||
  n == 0x2029 || n == 0x202F || n == 0x205F || n == 0x3000

/-- Models Rust `char::is_alphabetic` on the ranges exercised here: ASCII
letters and the CJK Unified Ideographs block. -/
def rustIsAlphabetic (c : Char) : Bool :=
  c.isAlpha || (0x4E00 ≤ c.toNat && c.toNat ≤ 0x9FFF)

/-- Models Rust `char::is_numeric` on the ranges exercised here: ASCII
decimal digits. -/
def rustIsNumeric (c : Char) : Bool :=
  c.isDigit

/-- Models Rust `char::is_alphanumeric`, which is
`is_alphabetic || is_numeric`. -/
def rustIsAlphanumeric (c : Char) : Bool :=
  rustIsAlphabetic c || rustIsNumeric c

/-- Models Rust `str::trim`: strip leading and trailing White_Space
characters. -/
def rustTrim (s : String) : String :=
  String.mk (((s.data.dropWhile rustIsWhitespace).reverse.dropWhile
    rustIsWhitespace).reverse)

/-- Models Rust `str::len`: the UTF-8 byte length. -/
def rustByteLen (s : String) : Nat :=
  s.data.foldl (fun n c => n + c.utf8Size) 0

/-! ### The dotted-quad scanner of `extract_ip_from_line`

`NetworkService::extract_ip_from_line` (network_service.rs:663) iterates
the matches of the regex `\b(\d{1,3}\.\d{1,3}\.\d{1,3}\.\d{1,3})\b` over
the line.  For this pattern, leftmost-first matching with greedy
quantifiers reduces to: a match starts at a digit not preceded by a word
character; its first three digit groups are maximal digit runs of length
1-3 each followed by `.`; the last group is a maximal digit run of length
1-3 followed by a non-word character or the end of the line.  Successive
matches are non-overlapping, scanning resumes after each match. -/

/-- Word characters for the regex word boundary `\b`. -/
def isWordChar (c : Char) : Bool :=
  rustIsAlphanumeric c || c == '_'

/-- Splits a maximal digit run off the front of the list. -/
def splitDigits (l : List Char) : List Char × List Char :=
  (l.takeWhile Char.isDigit, l.dropWhile Char.isDigit)

/-- Attempts to match `\d{1,3}(\.\d{1,3}){3}\b` at the head of `l`
(the leading `\b` is checked by the caller).  Returns the matched text and
the remainder of the input. -/
def matchIpAt (l : List Char) : Option (String × List Char) :=
  let (d1, r1) := splitDigits l
  if d1.length < 1 || 3 < d1.length then none else
  match r1 with
  | '.' :: r2 =>
    let (d2, r3) := splitDigits r2
    if d2.length < 1 || 3 < d2.length then none else
    match r3 with
    | '.' :: r4 =>
      let (d3, r5) := splitDigits r4
      if d3.length < 1 || 3 < d3.length then none else
      match r5 with
      | '.' :: r6 =>
        let (d4, r7) := splitDigits r6
        if d4.length < 1 || 3 < d4.length then none else
        let ip := String.mk (d1 ++ '.' :: d2 ++ '.' :: d3 ++ '.' :: d4)
        match r7 with
        | [] => some (ip, [])
        | c :: _ => if isWordChar c then none else some (ip, r7)
      | _ => none
    | _ => none
  | _ => none

/-- All regex matches in the line, left to right.  `prev` records whether
the previous character was a word character (for the leading `\b`); the
fuel argument is the number of remaining characters, enough for the whole
scan since every step consumes at least one character. -/
def scanIpsAux : Nat → Bool → List Char → List String
  | 0, _, _ => []
  | _, _, [] => []
  | fuel + 1, prev, c :: cs =>
    if !prev && c.isDigit then
      match matchIpAt (c :: cs) with
      | some (ip, rest) => ip :: scanIpsAux fuel true rest
      | none => scanIpsAux fuel (isWordChar c) cs
    else scanIpsAux fuel (isWordChar c) cs

/-- All dotted-quad regex matches in a line. -/
def scanIps (line : String) : List String :=
  scanIpsAux line.data.length false line.data

/-- Embeds `NetworkService::extract_ip_from_line` (network_service.rs:663):
the first regex match that is a valid dotted quad, lies in a private
range, and is not a loopback address. -/
def extract_ip_from_line (line : String) : Option String :=
  (scanIps line).find? fun ip =>
    is_valid_ip ip && (is_private_ip ip && !is_loopback ip)

example : extract_ip_from_line "Virtual IP: 10.144.144.1" = some "10.144.144.1" := by rfl
example : extract_ip_from_line "Localhost: 127.0.0.1" = none := by rfl
example : extract_ip_from_line "IP: 256.1.1.1" = none := by rfl
example : extract_ip_from_line "Got IP: 192.168.1.100" = some "192.168.1.100" := by rfl
example : extract_ip_from_line "No IP here" = none := by rfl
example : extract_ip_from_line "Invalid IP: 999.999.999.999" = none := by rfl
example : extract_ip_from_line "Connecting from 127.0.0.1 to 10.144.144.1" = some "10.144.144.1" := by rfl
example : extract_ip_from_line "Network: 10.144.144.1/24" = some "10.144.144.1" := by rfl
example : extract_ip_from_line "Version: 1.2.3.4.5" = none := by rfl
example : extract_ip_from_line "Zero IP: 0.0.0.0" = none := by rfl
example : extract_ip_from_line "IP:10.144.144.1" = some "10.144.144.1" := by rfl

/-! ### The companion-CLI query path

`NetworkService::query_virtual_ip_from_cli` (network_service.rs:450-532)
runs `easytier-cli --instance-name <id> --output json node info`, parses
the JSON object, and tries several field names in order.  Only the JSON
inspection (lines 499-531) is modelled; process launching is outside the
embedding.  A JSON object is modelled as an association list from field
names to values, where only string-valued fields matter. -/

/-- A JSON field value: a string, or anything else (`as_str` fails). -/
inductive JsonValue where
  | str (s : String)
  | other
deriving DecidableEq

/-- Models `serde_json::Value::get` on an object. -/
def jsonGet (json : List (String × JsonValue)) (field : String) :
    Option JsonValue :=
  (json.find? (fun e => e.1 == field)).map (·.2)

/-- Models stripping a CIDR suffix (network_service.rs:505-509): keep the
prefix before the first `/`, if any. -/
def stripCidr (s : String) : String :=
  String.mk (s.data.takeWhile (fun c => c ≠ '/'))

/-- The acceptance test the CLI path applies to one string field value
(network_service.rs:504-526): strip a CIDR suffix, require
`is_valid_ip`, then require the last of the four dot-separated parts to
parse as a `u8` between 1 and 254.  Note that, unlike the log-scraping
path, neither `is_private_ip` nor `is_loopback` is consulted. -/
def cli_accept_ip (ipStr : String) : Option String :=
  let ip := stripCidr ipStr
  if is_valid_ip ip then
    match splitOnDot ip.data with
    | [_, _, _, p3] =>
      match parseU8 p3 with
      | some lastOctet =>
        if 1 ≤ lastOctet && lastOctet ≤ 254 then some ip else none
      | none => none
    | _ => none
  else none

/-- The field names tried in order (network_service.rs:499). -/
def cliFields : List String :=
  ["virtual_ipv4", "ipv4", "virtual_ip", "ip", "ipv4_addr"]

/-- Embeds the JSON-inspection loop of
`NetworkService::query_virtual_ip_from_cli` (network_service.rs:499-531):
the first field, in order, that is present, string-valued and passes
`cli_accept_ip` yields the returned address; `none` models the final
`Err`. -/
def query_virtual_ip_from_cli (json : List (String × JsonValue)) :
    Option String :=
  cliFields.findSome? fun field =>
    match jsonGet json field with
    | some (.str s) => cli_accept_ip s
    | _ => none

example : query_virtual_ip_from_cli [("virtual_ipv4", .str "10.144.144.1/24")] = some "10.144.144.1" := by rfl
example : query_virtual_ip_from_cli [("ipv4", .str "10.144.144.0")] = none := by rfl
example : query_virtual_ip_from_cli [("virtual_ipv4", .str "127.0.0.1")] = some "127.0.0.1" := by rfl

/-! ### The address-discovery wait loop of `start_easytier`

`NetworkService::start_easytier` (network_service.rs:378-438) polls, in a
loop bounded by a 30-second timeout: the timeout, the shared status, the
shared virtual-ip cell, an occasional CLI query (every 3 seconds, at most
10 attempts), and the process-liveness flag.  One iteration of that loop
is embedded as a pure function of the values it observes.  Whether
`stop_easytier` is invoked before an error return is recorded in the
result (`failStopped` models `self.stop_easytier().await?; return Err`,
`failNoStop` models a bare `return Err`). -/

/-- Embeds `ConnectionStatus` (network_service.rs:60). -/
inductive ConnectionStatus where
  | connected (ip : String)
  | disconnected
  | connecting
  | error (msg : String)
deriving DecidableEq

/-- The values one iteration of the wait loop reads: whether the overall
timeout has elapsed, the status at the first read, the virtual-ip cell,
whether the 3-second/10-attempt CLI condition holds and what the query
returns, the liveness flag, and the status at the second read inside the
crash branch (a separate lock acquisition in the source). -/
structure LoopObs where
  timedOut : Bool
  status : ConnectionStatus
  virtualIp : Option String
  cliDue : Bool
  cliResult : Option String
  isRunning : Bool
  statusAtExit : ConnectionStatus
deriving DecidableEq

/-- Outcome of one iteration of the wait loop. -/
inductive StartIterResult where
  | continueWaiting
  | success (ip : String)
  | failStopped (msg : String)
  | failNoStop (msg : String)
deriving DecidableEq

/-- The timeout error message (network_service.rs:389). -/
def timeoutErrMsg : String := "获取虚拟 IP 超时：请检查网络连接和 EasyTier 服务状态"

/-- The premature-exit error message (network_service.rs:432). -/
def prematureExitMsg : String := "EasyTier 进程意外终止"

/-- Embeds one iteration of the wait loop of `start_easytier`
(network_service.rs:384-438), checking in source order: timeout, error
status, discovered virtual ip, CLI query, process liveness. -/
def start_wait_iteration (o : LoopObs) : StartIterResult :=
  if o.timedOut then .failStopped timeoutErrMsg
  else
    match o.status with
    | .error m => .failStopped m
    | _ =>
      match o.virtualIp with
      | some ip => .success ip
      | none =>
        match (if o.cliDue then o.cliResult else none) with
        | some ip => .success ip
        | none =>
          if o.isRunning then .continueWaiting
          else
            match o.statusAtExit with
            | .error m => .failNoStop m
            | _ => .failNoStop prematureExitMsg

example : start_wait_iteration ⟨true, .connecting, none, false, none, true, .connecting⟩ = .failStopped timeoutErrMsg := by rfl
example : start_wait_iteration ⟨false, .connecting, some "10.144.144.1", false, none, true, .connecting⟩ = .success "10.144.144.1" := by rfl
example : start_wait_iteration ⟨false, .connecting, none, false, none, false, .disconnected⟩ = .failNoStop prematureExitMsg := by rfl

/-! ### Lobby session manager

Embeds `lobby_manager.rs`.  `HashMap<String, Player>` is modelled as an
association list with unique keys; `uuid::Uuid::new_v4()` and
`Utc::now()` are environment inputs passed explicitly; the calls into
`NetworkService` (`start_easytier` / `stop_easytier`) are oracles for the
outcome of the awaited network operation. -/

/-- Embeds `LobbyError` (lobby_manager.rs:80). -/
inductive LobbyError where
  | invalidInput (msg : String)
  | networkError (msg : String)
  | alreadyInLobby
  | notInLobby
  | playerNotFound (id : String)
deriving DecidableEq

/-- Embeds `Lobby` (lobby_manager.rs:9). -/
structure Lobby where
  id : String
  name : String
  created_at : Int
  virtual_ip : String
  creator_virtual_ip : String
deriving DecidableEq

/-- Embeds `Lobby::new` (lobby_manager.rs:32); the fresh uuid and the
current time are passed in. -/
def Lobby.new (name virtual_ip creator_virtual_ip : String)
    (fresh_id : String) (now : Int) : Lobby :=
  { id := fresh_id, name := name, created_at := now,
    virtual_ip := virtual_ip, creator_virtual_ip := creator_virtual_ip }

/-- Embeds `Player` (lobby_manager.rs:46). -/
structure Player where
  id : String
  name : String
  mic_enabled : Bool
  is_muted : Bool
  joined_at : Int
deriving DecidableEq

/-- Embeds `Player::new` (lobby_manager.rs:67); the fresh uuid and the
current time are passed in. -/
def Player.new (name : String) (fresh_id : String) (now : Int) : Player :=
  { id := fresh_id, name := name, mic_enabled := false,
    is_muted := false, joined_at := now }

/-- Models `HashMap::insert`: replace the entry with this key if present,
otherwise add one. -/
def hmInsert {α : Type} (k : String) (v : α) :
    List (String × α) → List (String × α)
  | [] => [(k, v)]
  | (k', v') :: rest =>
    if k' == k then (k, v) :: rest else (k', v') :: hmInsert k v rest

/-- Models `HashMap::contains_key`. -/
def hmContains {α : Type} (k : String) (m : List (String × α)) : Bool :=
  m.any (fun e => e.1 == k)

/-- Models `HashMap::remove` (only the entry with this key goes). -/
def hmRemove {α : Type} (k : String) (m : List (String × α)) :
    List (String × α) :=
  m.filter (fun e => !(e.1 == k))

/-- Models `HashMap::get_mut` followed by a field update: nothing happens
when the key is absent. -/
def hmUpdate {α : Type} (k : String) (f : α → α) (m : List (String × α)) :
    List (String × α) :=
  m.map (fun e => if e.1 == k then (e.1, f e.2) else e)

/-- Embeds `LobbyManager`'s mutable state (lobby_manager.rs:124). -/
structure LobbyManagerState where
  current_lobby : Option Lobby
  players : List (String × Player)
deriving DecidableEq

/-- Embeds `LobbyManager::validate_input` (lobby_manager.rs:156): the
input must not be empty after trimming. -/
def validate_input (input field_name : String) : Except LobbyError Unit :=
  if (rustTrim input).data.isEmpty then
    .error (.invalidInput (field_name ++ "不能为空或仅包含空白字符"))
  else .ok ()

/-- Embeds `LobbyManager::validate_lobby_name` (lobby_manager.rs:182):
trim, then check the character count (4-32), the presence of an
alphanumeric character, and that every character is alphanumeric, `_`,
`-`, a space, or whitespace. -/
def validate_lobby_name (name : String) : Except LobbyError Unit :=
  let trimmed := rustTrim name
  let char_count := trimmed.data.length
  if char_count < 4 then
    .error (.invalidInput "大厅名称至少需要 4 个字符")
  else if char_count > 32 then
    .error (.invalidInput "大厅名称最多 32 个字符")
  else if !(trimmed.data.any rustIsAlphanumeric) then
    .error (.invalidInput "大厅名称必须包含至少一个字母或数字")
  else if !(trimmed.data.all fun c =>
      rustIsAlphanumeric c || c == '_' || c == '-' || c == ' ' ||
      rustIsWhitespace c) then
    .error (.invalidInput "大厅名称只能包含中文、字母、数字、下划线、连字符和空格")
  else .ok ()

/-- Embeds `LobbyManager::validate_password` (lobby_manager.rs:234):
trim, then check the BYTE length (Rust `str::len`, 8-32), the presence of
an alphabetic character, and the presence of a numeric character. -/
def validate_password (password : String) : Except LobbyError Unit :=
  let trimmed := rustTrim password
  if rustByteLen trimmed < 8 then
    .error (.invalidInput "密码至少需要 8 个字符")
  else if rustByteLen trimmed > 32 then
    .error (.invalidInput "密码最多 32 个字符")
  else if !(trimmed.data.any rustIsAlphabetic) then
    .error (.invalidInput "密码必须包含至少一个字母")
  else if !(trimmed.data.any rustIsNumeric) then
    .error (.invalidInput "密码必须包含至少一个数字")
  else .ok ()

/-- Embeds `LobbyManager::create_lobby` (lobby_manager.rs:280): guard
against an existing session, validate all four inputs, start the tunnel
for network `"MCTier-" ++ name`, then build the `Lobby` (with the
conventional creator address `10.126.126.1`) and insert the local player.
Returns the call's result together with the state after the call. -/
def create_lobby (st : LobbyManagerState)
    (name password player_name server_node : String)
    (start_easytier : String → String → String → Except String String)
    (lobby_id player_id : String) (now : Int) :
    Except LobbyError Lobby × LobbyManagerState :=
  if st.current_lobby.isSome then (.error .alreadyInLobby, st)
  else
    match validate_lobby_name name with
    | .error e => (.error e, st)
    | .ok _ =>
    match validate_password password with
    | .error e => (.error e, st)
    | .ok _ =>
    match validate_input player_name "玩家名称" with
    | .error e => (.error e, st)
    | .ok _ =>
    match validate_input server_node "服务器节点" with
    | .error e => (.error e, st)
    | .ok _ =>
    match start_easytier ("MCTier-" ++ name) password server_node with
    | .error e => (.error (.networkError e), st)
    | .ok virtual_ip =>
      let lobby := Lobby.new name virtual_ip "10.126.126.1" lobby_id now
      let player := Player.new player_name player_id now
      (.ok lobby,
       { current_lobby := some lobby,
         players := hmInsert player_id player st.players })

/-- Embeds `LobbyManager::join_lobby` (lobby_manager.rs:345), whose body
mirrors `create_lobby` (same guard, validation, bring-up, conventional
creator address, player insertion). -/
def join_lobby (st : LobbyManagerState)
    (name password player_name server_node : String)
    (start_easytier : String → String → String → Except String String)
    (lobby_id player_id : String) (now : Int) :
    Except LobbyError Lobby × LobbyManagerState :=
  if st.current_lobby.isSome then (.error .alreadyInLobby, st)
  else
    match validate_lobby_name name with
    | .error e => (.error e, st)
    | .ok _ =>
    match validate_password password with
    | .error e => (.error e, st)
    | .ok _ =>
    match validate_input player_name "玩家名称" with
    | .error e => (.error e, st)
    | .ok _ =>
    match validate_input server_node "服务器节点" with
    | .error e => (.error e, st)
    | .ok _ =>
    match start_easytier ("MCTier-" ++ name) password server_node with
    | .error e => (.error (.networkError e), st)
    | .ok virtual_ip =>
      let lobby := Lobby.new name virtual_ip "10.126.126.1" lobby_id now
      let player := Player.new player_name player_id now
      (.ok lobby,
       { current_lobby := some lobby,
         players := hmInsert player_id player st.players })

/-- Embeds `LobbyManager::leave_lobby` (lobby_manager.rs:411): fail with
`NotInLobby` when no session exists, otherwise stop the tunnel (the
oracle argument gives that call's outcome; on failure, state is kept and
the error surfaced) and clear the session and the roster. -/
def leave_lobby (st : LobbyManagerState)
    (stop_easytier : Except String Unit) :
    Except LobbyError Unit × LobbyManagerState :=
  if st.current_lobby.isNone then (.error .notInLobby, st)
  else
    match stop_easytier with
    | .error e => (.error (.networkError e), st)
    | .ok _ => (.ok (), { current_lobby := none, players := [] })

/-! ### Peer discovery and signaling

Embeds `p2p_signaling.rs`: the message type and the dispatch function
`P2PSignalingService::handle_message_static` (p2p_signaling.rs:281-451).
`std::time::Instant::now()` is an environment input; the Tauri event
emitter is modelled by a flag saying whether an app handle is installed,
and the emitted events are returned alongside the updated directory. -/

/-- A socket address: host and port. `set_port` is a field update. -/
structure SockAddr where
  host : String
  port : Nat
deriving DecidableEq

/-- Embeds `P2PMessage` (p2p_signaling.rs:12). -/
inductive P2PMessage where
  | playerDiscovery (player_id player_name : String) (port : Nat)
  | playerDiscoveryResponse (player_id player_name : String) (port : Nat)
  | offer (fromId sdp : String)
  | answer (fromId sdp : String)
  | iceCandidate (fromId candidate : String)
  | statusUpdate (player_id : String) (mic_enabled : Bool)
  | heartbeat (player_id : String) (timestamp : Int)
  | playerLeft (player_id : String)
deriving DecidableEq

/-- Embeds `PeerInfo` (p2p_signaling.rs:66). -/
structure PeerInfo where
  player_id : String
  player_name : String
  addr : SockAddr
  last_seen : Nat
deriving DecidableEq

/-- The notifications `handle_message_static` can emit to the UI layer. -/
inductive P2PEvent where
  | playerJoined (player_id player_name : String)
  | webrtcSignaling (kind fromId payload : String)
  | playerStatusUpdate (player_id : String) (mic_enabled : Bool)
  | playerLeft (player_id : String)
deriving DecidableEq

/-- Embeds `P2PSignalingService::handle_message_static`
(p2p_signaling.rs:281-451).  Returns the updated peer directory and the
events emitted (in order).  `has_app` models whether an app handle is
installed (no events are emitted otherwise); `now` models
`Instant::now()` at this call. -/
def handle_message_static (message : P2PMessage) (src_addr : SockAddr)
    (peers : List (String × PeerInfo)) (has_app : Bool)
    (local_player_id : Option String) (now : Nat) :
    List (String × PeerInfo) × List P2PEvent :=
  match message with
  | .playerDiscovery player_id player_name port =>
    if local_player_id == some player_id then (peers, [])
    else
      let already_exists := hmContains player_id peers
      let addr := { src_addr with port := port }
      let peer_info : PeerInfo :=
        { player_id := player_id, player_name := player_name,
          addr := addr, last_seen := now }
      let peers' := hmInsert player_id peer_info peers
      if !already_exists then
        (peers', if has_app then [.playerJoined player_id player_name] else [])
      else (peers', [])
  | .playerDiscoveryResponse player_id player_name port =>
    if local_player_id == some player_id then (peers, [])
    else
      let already_exists := hmContains player_id peers
      let addr := { src_addr with port := port }
      let peer_info : PeerInfo :=
        { player_id := player_id, player_name := player_name,
          addr := addr, last_seen := now }
      let peers' := hmInsert player_id peer_info peers
      if !already_exists then
        (peers', if has_app then [.playerJoined player_id player_name] else [])
      else (peers', [])
  | .offer fromId sdp =>
    (peers, if has_app then [.webrtcSignaling "offer" fromId sdp] else [])
  | .answer fromId sdp =>
    (peers, if has_app then [.webrtcSignaling "answer" fromId sdp] else [])
  | .iceCandidate fromId candidate =>
    (peers,
     if has_app then [.webrtcSignaling "ice-candidate" fromId candidate] else [])
  | .statusUpdate player_id mic_enabled =>
    (peers,
     if has_app then [.playerStatusUpdate player_id mic_enabled] else [])
  | .heartbeat player_id _timestamp =>
    (hmUpdate player_id (fun p => { p with last_seen := now }) peers, [])
  | .playerLeft player_id =>
    (hmRemove player_id peers,
     if has_app then [.playerLeft player_id] else [])

/-! ## Helper lemmas -/

theorem hmContains_hmInsert {α : Type} (k k' : String) (v : α)
    (m : List (String × α)) :
    hmContains k (hmInsert k' v m) = ((k' == k) || hmContains k m) := by
  induction m with
  | nil => simp [hmInsert, hmContains]
  | cons e t ih =>
    obtain ⟨a, b⟩ := e
    by_cases h : a = k'
    · subst h
      simp [hmInsert, hmContains, Bool.or_assoc]
    · simp only [hmInsert, beq_iff_eq, h, if_false]
      simp only [hmContains, List.any_cons] at ih ⊢
      rw [ih]
      cases h1 : (k' == k) <;> cases h2 : (a == k) <;> simp

theorem hmContains_hmInsert_self {α : Type} (k : String) (v : α)
    (m : List (String × α)) :
    hmContains k (hmInsert k v m) = true := by
  simp [hmContains_hmInsert]

theorem hmInsert_absorb {α : Type} (k : String) (v1 v2 : α)
    (m : List (String × α)) :
    hmInsert k v2 (hmInsert k v1 m) = hmInsert k v2 m := by
  induction m with
  | nil => simp [hmInsert]
  | cons e t ih =>
    obtain ⟨a, b⟩ := e
    by_cases h : a = k
    · subst h
      simp [hmInsert]
    · simp [hmInsert, h, ih]

theorem hmContains_hmUpdate {α : Type} (k k' : String) (f : α → α)
    (m : List (String × α)) :
    hmContains k (hmUpdate k' f m) = hmContains k m := by
  induction m with
  | nil => rfl
  | cons e t ih =>
    obtain ⟨a, b⟩ := e
    have hcons : hmUpdate k' f ((a, b) :: t)
        = (if (a == k') = true then (a, f b) else (a, b)) :: hmUpdate k' f t :=
      rfl
    rw [hcons]
    by_cases h : a = k'
    · rw [if_pos (by simp [h])]
      simp only [hmContains, List.any_cons] at ih ⊢
      rw [ih]
    · rw [if_neg (by simp [h])]
      simp only [hmContains, List.any_cons] at ih ⊢
      rw [ih]

theorem hmContains_hmRemove_false {α : Type} (k k' : String)
    (m : List (String × α)) :
    hmContains k m = false → hmContains k (hmRemove k' m) = false := by
  induction m with
  | nil => intro _; rfl
  | cons e t ih =>
    intro h
    obtain ⟨a, b⟩ := e
    simp only [hmContains, List.any_cons, Bool.or_eq_false_iff] at h
    unfold hmRemove
    rw [List.filter_cons]
    split
    · simp only [hmContains, List.any_cons, Bool.or_eq_false_iff]
      exact ⟨h.1, ih h.2⟩
    · exact ih h.2

theorem findSome_imp {α β : Type} {p : β → Prop} {f : α → Option β}
    (hf : ∀ a b, f a = some b → p b) :
    ∀ (l : List α) (b : β), l.findSome? f = some b → p b := by
  intro l
  induction l with
  | nil =>
    intro b h
    simp [List.findSome?] at h
  | cons a t ih =>
    intro b h
    rw [List.findSome?_cons] at h
    cases hfa : f a with
    | some c =>
      rw [hfa] at h
      exact Option.some.inj h ▸ hf a c hfa
    | none =>
      rw [hfa] at h
      exact ih b h

theorem cli_accept_ip_props (s ip : String)
    (h : cli_accept_ip s = some ip) :
    is_valid_ip ip = true ∧ last_octet_ok ip = true := by
  unfold cli_accept_ip at h
  dsimp only at h
  split at h
  case isFalse => simp at h
  case isTrue hval =>
    split at h
    case h_2 => simp at h
    case h_1 p0 p1 p2 p3 heq =>
      split at h
      case h_2 => simp at h
      case h_1 o ho =>
        split at h
        case isFalse => simp at h
        case isTrue hoct =>
          cases h
          refine ⟨hval, ?_⟩
          have hlast : last_octet_ok (stripCidr s)
              = match parseU8 p3 with
                | some o => decide (1 ≤ o) && decide (o ≤ 254)
                | none => false := by
            unfold last_octet_ok
            rw [heq]
          rw [hlast, ho]
          exact hoct

/-! ## Theorems -/

/-- Claim C1.  The spec claims the CLI query applies the same validity filter
as the log-scraping path (private range, non-loopback, host octet); on
this JSON object the CLI path accepts the loopback address `127.0.0.1`,
which the log path's filter rejects. -/
theorem cli_query_accepts_loopback :
    query_virtual_ip_from_cli [("virtual_ipv4", .str "127.0.0.1")]
        = some "127.0.0.1" ∧
    is_loopback "127.0.0.1" = true ∧
    is_private_ip "127.0.0.1" = false :=
  ⟨rfl, rfl, rfl⟩

/-- Claim C1 (amended).  Every address the CLI query path accepts is a valid
dotted quad (after stripping any CIDR suffix) whose last octet is
between 1 and 254; the private-range and non-loopback checks of the
log-scraping path are NOT applied on this path. -/
theorem cli_query_accepts_valid_host_only
    (json : List (String × JsonValue)) (ip : String)
    (h : query_virtual_ip_from_cli json = some ip) :
    is_valid_ip ip = true ∧ last_octet_ok ip = true := by
  refine @findSome_imp String String
    (fun a => is_valid_ip a = true ∧ last_octet_ok a = true) _ ?_ cliFields ip h
  intro field b hb
  split at hb
  case h_1 s heq => exact cli_accept_ip_props s b hb
  case h_2 hne => simp at hb

/-- Witness for C1: a concrete accepted address. -/
theorem cli_query_accepts_valid_host_only_witness :
    is_valid_ip "10.144.144.1" = true ∧ last_octet_ok "10.144.144.1" = true :=
  cli_query_accepts_valid_host_only
    [("virtual_ipv4", .str "10.144.144.1/24")] "10.144.144.1" rfl

/-- Claim C2.  The spec claims all three bring-up failures (timeout, premature
daemon exit, fatal error line) trigger teardown before the error
returns; in the premature-exit iteration the loop returns the error
WITHOUT invoking `stop_easytier` (observations: not timed out, status
`Disconnected` as the process monitor set it, no address, no CLI
result, process no longer running). -/
theorem premature_exit_no_teardown :
    start_wait_iteration ⟨false, .disconnected, none, false, none, false, .disconnected⟩
        = .failNoStop prematureExitMsg ∧
    ∀ m, start_wait_iteration
        ⟨false, .disconnected, none, false, none, false, .disconnected⟩
      ≠ .failStopped m :=
  ⟨rfl, fun _ h => StartIterResult.noConfusion h⟩

/-- Claim C2 (amended).  Exceeding the timeout and a fatal error line both
cause the wait loop to invoke `stop_easytier` and then return an error;
premature daemon exit returns its error directly, without teardown (the
process monitor has already marked the service stopped). -/
theorem start_failure_modes (o : LoopObs) :
    (o.timedOut = true →
      start_wait_iteration o = .failStopped timeoutErrMsg) ∧
    (∀ m, o.timedOut = false → o.status = .error m →
      start_wait_iteration o = .failStopped m) ∧
    (o.timedOut = false → (∀ m, o.status ≠ .error m) →
      o.virtualIp = none →
      (if o.cliDue then o.cliResult else none) = none →
      o.isRunning = false → (∀ m, o.statusAtExit ≠ .error m) →
      start_wait_iteration o = .failNoStop prematureExitMsg) := by
  refine ⟨?_, ?_, ?_⟩
  · intro ht
    unfold start_wait_iteration
    rw [ht]
    rfl
  · intro m ht hs
    unfold start_wait_iteration
    rw [ht, hs]
    rfl
  · intro ht hs hvip hcli hrun hs2
    unfold start_wait_iteration
    rw [ht, hvip, hcli, hrun]
    cases h1 : o.status with
    | error m => exact absurd h1 (hs m)
    | connected ip =>
      cases h2 : o.statusAtExit with
      | error m => exact absurd h2 (hs2 m)
      | connected ip2 => rfl
      | disconnected => rfl
      | connecting => rfl
    | disconnected =>
      cases h2 : o.statusAtExit with
      | error m => exact absurd h2 (hs2 m)
      | connected ip2 => rfl
      | disconnected => rfl
      | connecting => rfl
    | connecting =>
      cases h2 : o.statusAtExit with
      | error m => exact absurd h2 (hs2 m)
      | connected ip2 => rfl
      | disconnected => rfl
      | connecting => rfl

/-- Witness for C2: the timeout iteration. -/
theorem start_failure_modes_witness :
    start_wait_iteration ⟨true, .connecting, none, false, none, true, .connecting⟩
      = .failStopped timeoutErrMsg :=
  (start_failure_modes _).1 rfl

/-- Claim C3.  The spec claims any line containing both `127.0.0.1` and
`10.144.144.1` yields `10.144.144.1`; the extractor actually returns the
FIRST valid private non-loopback match, so a line that also contains
`192.168.1.5` before them yields that address instead. -/
theorem extract_ip_first_match_wins :
    "192.168.1.5 127.0.0.1 10.144.144.1"
        = "192.168.1.5 " ++ "127.0.0.1" ++ " " ++ "10.144.144.1" ∧
    extract_ip_from_line "192.168.1.5 127.0.0.1 10.144.144.1"
        = some "192.168.1.5" ∧
    some "192.168.1.5" ≠ some ("10.144.144.1" : String) :=
  ⟨rfl, rfl, by decide⟩

/-- Claim C3 (amended).  The extractor meets the spec's concrete vectors
(including the repository's own two-address test line, where
`10.144.144.1` is the first private non-loopback match), and every
address it returns is a valid, private-range, non-loopback dotted
quad. -/
theorem extract_ip_spec_vectors :
    extract_ip_from_line "Virtual IP: 10.144.144.1" = some "10.144.144.1" ∧
    extract_ip_from_line "Localhost: 127.0.0.1" = none ∧
    extract_ip_from_line "IP: 256.1.1.1" = none ∧
    extract_ip_from_line "Connecting from 127.0.0.1 to 10.144.144.1"
        = some "10.144.144.1" ∧
    ∀ (line ip : String), extract_ip_from_line line = some ip →
      is_valid_ip ip = true ∧ is_private_ip ip = true ∧
      is_loopback ip = false := by
  refine ⟨rfl, rfl, rfl, rfl, ?_⟩
  intro line ip h
  have hp := List.find?_some h
  simp only [Bool.and_eq_true, Bool.not_eq_true'] at hp
  exact ⟨hp.1, hp.2.1, hp.2.2⟩

/-- Witness for C3: the filter facts at a concrete extracted address. -/
theorem extract_ip_spec_vectors_witness :
    is_valid_ip "172.16.5.9" = true ∧ is_private_ip "172.16.5.9" = true ∧
    is_loopback "172.16.5.9" = false :=
  extract_ip_spec_vectors.2.2.2.2 "Got IP: 172.16.5.9" "172.16.5.9" rfl

/-- Claim C8.  Two consecutive discovery (or discovery-response) messages from
the same previously-unknown, non-self peer: the first inserts the
`PeerInfo` and emits exactly one player-joined event, the second emits
nothing and merely refreshes the entry's `last_seen` (the directory
equals the one the first message produced, with the new timestamp). -/
theorem duplicate_discovery_single_join
    (msg : P2PMessage) (pid pname : String) (port : Nat) (src : SockAddr)
    (peers : List (String × PeerInfo)) (lid : Option String) (t1 t2 : Nat)
    (hmsg : msg = .playerDiscovery pid pname port ∨
            msg = .playerDiscoveryResponse pid pname port)
    (hself : lid ≠ some pid)
    (hnew : hmContains pid peers = false) :
    (handle_message_static msg src peers true lid t1).2
        = [.playerJoined pid pname] ∧
    (handle_message_static msg src
        (handle_message_static msg src peers true lid t1).1 true lid t2).2
      = [] ∧
    (handle_message_static msg src peers true lid t1).1
        = hmInsert pid ⟨pid, pname, { src with port := port }, t1⟩ peers ∧
    (handle_message_static msg src
        (handle_message_static msg src peers true lid t1).1 true lid t2).1
      = hmInsert pid ⟨pid, pname, { src with port := port }, t2⟩ peers := by
  have hb : (lid == some pid) = false := beq_eq_false_iff_ne.mpr hself
  rcases hmsg with h | h <;> subst h <;>
    refine ⟨?_, ?_, ?_, ?_⟩ <;>
    simp [handle_message_static, hb, hnew, hmContains_hmInsert_self,
      hmInsert_absorb]

/-- Witness for C8: first discovery from a fresh peer emits the joined
event. -/
theorem duplicate_discovery_single_join_witness :
    (handle_message_static (.playerDiscovery "P9" "Zoe" 47777)
        ⟨"10.144.144.9", 55⟩ [] true none 0).2
      = [.playerJoined "P9" "Zoe"] :=
  (duplicate_discovery_single_join _ "P9" "Zoe" 47777 ⟨"10.144.144.9", 55⟩
    [] none 0 1 (Or.inl rfl) (by decide) rfl).1

/-- Claim C9.  A discovery or discovery-response whose `player_id` equals the
local id is dropped: the directory and the event stream are untouched;
consequently every message handler preserves the invariant that the
local id is not a key of the directory, so a node never sees itself
among its peers. -/
theorem self_discovery_ignored (src : SockAddr)
    (peers : List (String × PeerInfo)) (has_app : Bool) (lid : String)
    (now : Nat) :
    (∀ pname port,
      handle_message_static (.playerDiscovery lid pname port) src peers
          has_app (some lid) now = (peers, []) ∧
      handle_message_static (.playerDiscoveryResponse lid pname port) src
          peers has_app (some lid) now = (peers, [])) ∧
    (∀ msg, hmContains lid peers = false →
      hmContains lid
        (handle_message_static msg src peers has_app (some lid) now).1
      = false) := by
  constructor
  · intro pname port
    constructor <;> simp [handle_message_static]
  · intro msg h
    cases msg with
    | playerDiscovery pid pname port =>
      by_cases hpid : pid = lid
      · subst hpid
        simp [handle_message_static, h]
      · have hb : ((some lid : Option String) == some pid) = false := by
          simp [Ne.symm hpid]
        by_cases hex : hmContains pid peers = true <;>
          simp [handle_message_static, hb, hex, hmContains_hmInsert, hpid, h]
    | playerDiscoveryResponse pid pname port =>
      by_cases hpid : pid = lid
      · subst hpid
        simp [handle_message_static, h]
      · have hb : ((some lid : Option String) == some pid) = false := by
          simp [Ne.symm hpid]
        by_cases hex : hmContains pid peers = true <;>
          simp [handle_message_static, hb, hex, hmContains_hmInsert, hpid, h]
    | offer fromId sdp => simpa [handle_message_static] using h
    | answer fromId sdp => simpa [handle_message_static] using h
    | iceCandidate fromId candidate => simpa [handle_message_static] using h
    | statusUpdate pid mic => simpa [handle_message_static] using h
    | heartbeat pid ts =>
      simpa [handle_message_static, hmContains_hmUpdate] using h
    | playerLeft pid =>
      simpa [handle_message_static] using hmContains_hmRemove_false lid pid peers h

/-- Witness for C9: a self-discovery on a concrete state is a no-op. -/
theorem self_discovery_ignored_witness :
    handle_message_static (.playerDiscovery "SELF" "Me" 1) ⟨"10.0.0.2", 9⟩
        [] true (some "SELF") 5 = ([], []) :=
  ((self_discovery_ignored ⟨"10.0.0.2", 9⟩ [] true "SELF" 5).1 "Me" 1).1

/-- Claim C4.  The spec claims the name validator rejects every name of fewer
than 4 or more than 32 characters; the code counts characters of the
TRIMMED name, so this 33-character name (32 letters and a trailing
space) is accepted. -/
theorem lobby_name_33_chars_accepted :
    ("aaaaaaaaaaaaaaaaaaaaaaaaaaaaaaaa ").data.length = 33 ∧
    validate_lobby_name "aaaaaaaaaaaaaaaaaaaaaaaaaaaaaaaa " = .ok () :=
  ⟨rfl, rfl⟩

/-- Claim C4 (amended).  `validate_lobby_name` accepts exactly the names whose
TRIMMED form has 4 to 32 characters, contains an alphanumeric character,
and consists solely of alphanumeric characters, underscores, hyphens and
whitespace (any whitespace, not just the space character). -/
theorem validate_lobby_name_characterization (name : String) :
    validate_lobby_name name = .ok () ↔
      4 ≤ (rustTrim name).data.length ∧ (rustTrim name).data.length ≤ 32 ∧
      (rustTrim name).data.any rustIsAlphanumeric = true ∧
      (rustTrim name).data.all (fun c =>
        rustIsAlphanumeric c || c == '_' || c == '-' || c == ' ' ||
        rustIsWhitespace c) = true := by
  unfold validate_lobby_name
  dsimp only
  split_ifs with h1 h2 h3 h4
  · constructor <;> intro h
    · simp at h
    · obtain ⟨hA, -, -, -⟩ := h
      omega
  · constructor <;> intro h
    · simp at h
    · obtain ⟨-, hB, -, -⟩ := h
      omega
  · simp only [Bool.not_eq_true'] at h3
    constructor <;> intro h
    · simp at h
    · exact absurd h.2.2.1 (by simp [h3])
  · simp only [Bool.not_eq_true'] at h4
    constructor <;> intro h
    · simp at h
    · exact absurd h.2.2.2 (by simp [h4])
  · simp only [Bool.not_eq_true, Bool.not_eq_false'] at h3 h4
    exact iff_of_true rfl ⟨by omega, by omega, h3, h4⟩

/-- Witness for C4: a concrete accepted name. -/
theorem validate_lobby_name_characterization_witness :
    validate_lobby_name "Test Lobby" = .ok () :=
  (validate_lobby_name_characterization "Test Lobby").mpr (by decide)

/-- Claim C5.  The spec claims every password of 8-32 characters containing a
letter and a digit is accepted; the code measures the UTF-8 byte length
of the TRIMMED password, so this 8-character password (six spaces, then
`a1`) is rejected as too short. -/
theorem password_8_chars_rejected :
    ("      a1").data.length = 8 ∧
    ("      a1").data.any rustIsAlphabetic = true ∧
    ("      a1").data.any rustIsNumeric = true ∧
    validate_password "      a1" = .error (.invalidInput "密码至少需要 8 个字符") :=
  ⟨rfl, rfl, rfl, rfl⟩

/-- Claim C5 (amended).  `validate_password` accepts exactly the passwords
whose TRIMMED form is 8 to 32 UTF-8 bytes long and contains at least one
alphabetic and one numeric character. -/
theorem validate_password_characterization (password : String) :
    validate_password password = .ok () ↔
      8 ≤ rustByteLen (rustTrim password) ∧
      rustByteLen (rustTrim password) ≤ 32 ∧
      (rustTrim password).data.any rustIsAlphabetic = true ∧
      (rustTrim password).data.any rustIsNumeric = true := by
  unfold validate_password
  dsimp only
  split_ifs with h1 h2 h3 h4
  · constructor <;> intro h
    · simp at h
    · obtain ⟨hA, -, -, -⟩ := h
      omega
  · constructor <;> intro h
    · simp at h
    · obtain ⟨-, hB, -, -⟩ := h
      omega
  · simp only [Bool.not_eq_true'] at h3
    constructor <;> intro h
    · simp at h
    · exact absurd h.2.2.1 (by simp [h3])
  · simp only [Bool.not_eq_true'] at h4
    constructor <;> intro h
    · simp at h
    · exact absurd h.2.2.2 (by simp [h4])
  · simp only [Bool.not_eq_true, Bool.not_eq_false'] at h3 h4
    exact iff_of_true rfl ⟨by omega, by omega, h3, h4⟩

/-- Witness for C5: a concrete accepted password. -/
theorem validate_password_characterization_witness :
    validate_password "pass1234" = .ok () :=
  (validate_password_characterization "pass1234").mpr (by decide)

/-- Claim C6.  With a session already present, both `create_lobby` and
`join_lobby` fail with `AlreadyInLobby` and leave the session and the
roster untouched. -/
theorem already_in_lobby_guard (st : LobbyManagerState) (l : Lobby)
    (hl : st.current_lobby = some l)
    (name password player_name server_node : String)
    (start : String → String → String → Except String String)
    (lobby_id player_id : String) (now : Int) :
    create_lobby st name password player_name server_node start
        lobby_id player_id now = (.error .alreadyInLobby, st) ∧
    join_lobby st name password player_name server_node start
        lobby_id player_id now = (.error .alreadyInLobby, st) := by
  constructor <;> simp [create_lobby, join_lobby, hl]

/-- Witness for C6: the guard fires on a concrete one-lobby state. -/
theorem already_in_lobby_guard_witness :
    create_lobby
        ⟨some (Lobby.new "Test Lobby" "10.144.144.1" "10.126.126.1" "L1" 0), []⟩
        "Other" "pass1234" "Bob" "tcp://node:11010"
        (fun _ _ _ => .ok "10.144.144.2") "L2" "P2" 1
      = (.error .alreadyInLobby,
         ⟨some (Lobby.new "Test Lobby" "10.144.144.1" "10.126.126.1" "L1" 0), []⟩) :=
  (already_in_lobby_guard _ _ rfl "Other" "pass1234" "Bob" "tcp://node:11010"
    (fun _ _ _ => .ok "10.144.144.2") "L2" "P2" 1).1

/-- Claim C7.  Without a session, `leave_lobby` fails with `NotInLobby` and
changes nothing; and after a successful `leave_lobby`, an immediately
following `leave_lobby` fails with `NotInLobby` with no side effects. -/
theorem leave_lobby_guard :
    (∀ (st : LobbyManagerState) (stop : Except String Unit),
        st.current_lobby = none →
        leave_lobby st stop = (.error .notInLobby, st)) ∧
    (∀ (st st1 : LobbyManagerState) (stop1 stop2 : Except String Unit),
        leave_lobby st stop1 = (.ok (), st1) →
        leave_lobby st1 stop2 = (.error .notInLobby, st1)) := by
  constructor
  · intro st stop h
    simp [leave_lobby, h]
  · intro st st1 stop1 stop2 h
    unfold leave_lobby at h ⊢
    split at h
    · simp at h
    · split at h
      · simp at h
      · simp only [Prod.mk.injEq] at h
        rw [← h.2]
        simp

/-- Witness for C7: a concrete double-leave. -/
theorem leave_lobby_guard_witness :
    leave_lobby ⟨none, []⟩ (.ok ()) = (.error .notInLobby, ⟨none, []⟩) :=
  leave_lobby_guard.1 ⟨none, []⟩ (.ok ()) rfl

/-- Claim C10.  Every successful `create_lobby` or `join_lobby` returns a lobby
whose `creator_virtual_ip` is the hard-coded constant `10.126.126.1`,
regardless of the inputs and of the virtual address the tunnel
reported. -/
theorem creator_virtual_ip_constant (st : LobbyManagerState)
    (name password player_name server_node : String)
    (start : String → String → String → Except String String)
    (lobby_id player_id : String) (now : Int) (lobby : Lobby) :
    ((create_lobby st name password player_name server_node start
        lobby_id player_id now).1 = .ok lobby →
      lobby.creator_virtual_ip = "10.126.126.1") ∧
    ((join_lobby st name password player_name server_node start
        lobby_id player_id now).1 = .ok lobby →
      lobby.creator_virtual_ip = "10.126.126.1") := by
  constructor
  · intro h
    unfold create_lobby at h
    split at h
    · simp at h
    · split at h <;> try simp at h
      split at h <;> try simp at h
      split at h <;> try simp at h
      split at h <;> try simp at h
      split at h <;> try simp at h
      subst h
      rfl
  · intro h
    unfold join_lobby at h
    split at h
    · simp at h
    · split at h <;> try simp at h
      split at h <;> try simp at h
      split at h <;> try simp at h
      split at h <;> try simp at h
      split at h <;> try simp at h
      subst h
      rfl

/-- Witness for C10: a concrete successful creation. -/
theorem creator_virtual_ip_constant_witness :
    (Lobby.new "Test Lobby" "10.144.144.1" "10.126.126.1" "L1" 0).creator_virtual_ip
      = "10.126.126.1" :=
  (creator_virtual_ip_constant ⟨none, []⟩ "Test Lobby" "pass1234" "Alice"
    "tcp://node:11010" (fun _ _ _ => .ok "10.144.144.1") "L1" "P1" 0 _).1 rfl

end MCTier
